import Mathlib

/-!
Verification development for the marketing-agents orchestration backend.

The definitions below are a shallow embedding of the Python sources:
  * `backend/app/brew/graph.py` (planner heuristics, `_run_worker`,
    the research/reviewer/strategist debate loop, `task_router`),
  * `backend/app/brew/state.py` (`TaskAssignment`, `TaskPlan`,
    `WorkerReport`, `BrewState`),
  * `backend/app/investigator/graph.py` (`planner_node`, `executor_node`,
    `should_continue`),
  * `backend/app/server.py` (`detect_investigator_intent`,
    `run_investigator_stream` event translation).

External collaborators (the LLM completion service, the web tools) are
modelled as oracle parameters: a fallible call is an
`Except String String` (error message or extracted text), a structured
plan call is an `Except String TaskPlan`, and per-task tool results are a
function from the task index.
-/

/-! ## Python string primitives -/

/-- Does the first character list occur contiguously inside the second? -/
def containsSub (n : List Char) : List Char → Bool
  | [] => n.isEmpty
  | c :: t => n.isPrefixOf (c :: t) || containsSub n t

/-- Python `needle in hay` on strings: substring containment. -/
def pyIn (needle hay : String) : Bool :=
  containsSub needle.data hay.data

/-- Python `str.lower()` (ASCII view). -/
def pyLower (s : String) : String :=
  ⟨s.data.map Char.toLower⟩

/-- Python `str.strip()`: drop leading and trailing whitespace. -/
def pyStrip (s : String) : String :=
  ⟨((s.data.dropWhile Char.isWhitespace).reverse.dropWhile Char.isWhitespace).reverse⟩

/-- Python `str.replace(old, new)` for single-character patterns. -/
def replaceChar (old new : Char) (s : String) : String :=
  ⟨s.data.map (fun c => if c = old then new else c)⟩

/-- Python `str.split()` with no argument: split on whitespace runs,
dropping empty pieces. -/
def pySplitWs (s : String) : List String :=
  ((s.data.splitOnP Char.isWhitespace).filter (fun l => l ≠ [])).map (fun l => ⟨l⟩)

/-! ## Brew data model (`brew/state.py`) -/

/-- `TaskAssignment` from `brew/state.py`: worker name, task text, priority. -/
structure TaskAssignment where
  worker : String
  task : String
  priority : Nat
deriving DecidableEq

/-- `TaskPlan` from `brew/state.py`. -/
structure TaskPlan where
  reasoning : String
  tasks : List TaskAssignment
deriving DecidableEq

/-- `WorkerReport` from `brew/state.py`. -/
structure WorkerReport where
  worker : String
  task : String
  status : String
  result : String
  sources : List String
deriving DecidableEq

/-- The shared brew graph state: the declared `BrewState` fields plus the
channels the nodes exchange at runtime (`route`, `assignment`,
`research_data`, `critique_feedback`, `iteration_count`), with the
defaults the nodes read via `state.get`. -/
structure BrewS where
  taskPlan : List TaskAssignment := []
  nextTaskIndex : Nat := 0
  workerReports : List WorkerReport := []
  researchData : String := ""
  critiqueFeedback : String := ""
  iterationCount : Nat := 0
  route : String := ""
  assignment : Option TaskAssignment := none
  finalResponse : String := ""
  status : String := ""

/-! ## Brew planner heuristics (`brew/graph.py`, `planner`) -/

def simpleGreetings : List String :=
  ["hi", "hello", "hey", "yo", "sup", "howdy", "kiddan", "kiddaan", "tussin", "tusin"]

def actionKeywords : List String :=
  ["research", "search", "find", "latest", "sources", "cite", "tavily", "news",
   "trend", "twitter", "tweet", "x", "linkedin", "post", "campaign", "strategy",
   "analyze", "analysis", "benchmark", "kpi", "metrics"]

def identityPhrases : List String :=
  ["who are you", "what can you do", "how are you"]

/-- `user_lower = user_text.lower().strip()`. -/
def plannerUserLower (userText : String) : String :=
  pyStrip (pyLower userText)

/-- `tokens = [t for t in user_lower.replace("?", " ").replace("!", " ").split() if t]`. -/
def plannerTokens (userText : String) : List String :=
  pySplitWs (replaceChar '!' ' ' (replaceChar '?' ' ' (plannerUserLower userText)))

/-- `is_action = any(k in user_lower for k in action_keywords)`. -/
def isActionMsg (userText : String) : Bool :=
  actionKeywords.any (fun k => pyIn k (plannerUserLower userText))

/-- `is_greeting_like = (len(tokens) <= 6) and any(t in simple_greetings for t in tokens)`. -/
def isGreetingLike (userText : String) : Bool :=
  decide ((plannerTokens userText).length ≤ 6) &&
    (plannerTokens userText).any (fun t => simpleGreetings.contains t)

/-- `simple = is_greeting_like or (len(tokens) <= 6 and not is_action and
any(k in user_lower for k in [identity phrases]))`. -/
def isSimpleMsg (userText : String) : Bool :=
  isGreetingLike userText ||
    (decide ((plannerTokens userText).length ≤ 6) && !isActionMsg userText &&
      identityPhrases.any (fun k => pyIn k (plannerUserLower userText)))

/-- The three outcomes of the brew planner heuristic routing. -/
inductive PlannerPath
  | direct
  | cheap
  | structured
deriving DecidableEq

/-- Which branch of `planner` a user message takes: direct response if
`simple`, the cheap general-worker path if not action-flagged and at most
25 tokens, otherwise the structured model call. -/
def plannerPath (userText : String) : PlannerPath :=
  if isSimpleMsg userText then .direct
  else if !isActionMsg userText && decide ((plannerTokens userText).length ≤ 25) then .cheap
  else .structured

/-- `sorted(plan.tasks, key=lambda t: getattr(t, "priority", 2) or 2)`:
Python `or 2` turns a zero priority into 2. -/
def sortKey (t : TaskAssignment) : Nat :=
  if t.priority = 0 then 2 else t.priority

/-- Stable insertion of an assignment after all entries of smaller-or-equal
key, modelling the stable Python `sorted` by priority. -/
def insertByKey (t : TaskAssignment) : List TaskAssignment → List TaskAssignment
  | [] => [t]
  | u :: us => if sortKey u ≤ sortKey t then u :: insertByKey t us else t :: u :: us

def sortTasksByPriority (ts : List TaskAssignment) : List TaskAssignment :=
  ts.foldl (fun acc t => insertByKey t acc) []

/-- The partial state update a brew planner run returns: `task_plan`,
`status`, and (on the structured branch only) `next_task_index`. -/
structure PlannerUpdate where
  taskPlan : TaskPlan
  status : String
  nextTaskIndex : Option Nat
deriving DecidableEq

/-- `planner` from `brew/graph.py`: the heuristic routing plus the
structured model call (modelled as the `modelPlan` oracle).  The
structured branch has no exception handling, so a failing structured call
propagates as `Except.error`. -/
def brewPlanner (userText : String) (modelPlan : Except String TaskPlan) :
    Except String PlannerUpdate :=
  match plannerPath userText with
  | .direct =>
    .ok ⟨⟨"Direct response", []⟩, "Direct response", none⟩
  | .cheap =>
    .ok ⟨⟨"General question - no internet needed", [⟨"general", userText, 1⟩]⟩,
         "Planning complete: 1 tasks assigned", none⟩
  | .structured =>
    match modelPlan with
    | .error e => .error e
    | .ok plan =>
      let plan2 : TaskPlan :=
        if plan.tasks = [] then plan else ⟨plan.reasoning, sortTasksByPriority plan.tasks⟩
      .ok ⟨plan2, "Planning complete: " ++ toString plan2.tasks.length ++ " tasks assigned",
           some 0⟩

/-! ## Brew worker wrapper (`brew/graph.py`, `_run_worker`) -/

/-- The text `_run_worker` sends to the underlying agent:
`override_task if override_task else (assignment.task if assignment else "")`
(Python truthiness: an empty override falls through to the assignment). -/
def workerCallInput (a : TaskAssignment) (overrideTask : Option String) : String :=
  match overrideTask with
  | some o => if o = "" then a.task else o
  | none => a.task

/-- The `WorkerName` Literal of `brew/state.py`: the only worker values
pydantic accepts for `TaskAssignment.worker` and `WorkerReport.worker`.
Note that `reviewer`, `strategist` and `report` are not in it. -/
def validWorkerNames : List String :=
  ["research", "content", "analytics", "social", "general"]

/-- The pydantic `ValidationError` raised when a `WorkerReport` is
constructed with a worker name outside the `WorkerName` Literal. -/
def workerNameError (workerName : String) : String :=
  "ValidationError: worker " ++ workerName ++ " is not a WorkerName literal"

/-- Constructing a `WorkerReport` as pydantic does: the `worker` field is
validated against the `WorkerName` Literal at construction time and any
other name raises.  (The `status` field is a Literal too, but every
construction site passes a valid status.) -/
def mkWorkerReport (worker task status result : String) : Except String WorkerReport :=
  if validWorkerNames.contains worker then .ok ⟨worker, task, status, result, []⟩
  else .error (workerNameError worker)

/-- The report and next index `_run_worker` produces when the assignment is
present and the worker name is a `WorkerName` literal, so that every report
construction succeeds.  `outcome` is the agent invocation: `Except.error e`
models the agent raising exception `e`, `Except.ok text` the extracted
result text.  `runWorker_valid` proves this is exactly what `runWorker`
returns in that case. -/
def runWorkerOk (outcome : Except String String) (workerName : String)
    (a : TaskAssignment) (overrideTask : Option String) (incrementIndex : Bool)
    (stateIdx : Nat) : WorkerReport × Nat :=
  let bump : Nat := if incrementIndex then 1 else 0
  if workerCallInput a overrideTask = "" then
    (⟨workerName, "", "failed", "Missing assignment.", []⟩, stateIdx + bump)
  else
    match outcome with
    | .ok text => (⟨workerName, a.task, "success", text, []⟩, stateIdx + bump)
    | .error e => (⟨workerName, a.task, "failed", "Worker failed: " ++ e, []⟩, stateIdx + bump)

/-- Full `_run_worker`.  Every branch — the early missing-assignment
return, the success path and the `except` handler — constructs a
`WorkerReport` with the given worker name, so a name outside the
`WorkerName` Literal raises a `ValidationError` out of the wrapper on
every call (an agent exception caught by the handler is replaced by the
`ValidationError` of the report the handler itself builds).  When the
assignment is `none` and a non-empty override is given, the success and
exception branches dereference `assignment.task` first, so an
`AttributeError` escapes instead. -/
def runWorker (outcome : Except String String) (workerName : String)
    (assignment : Option TaskAssignment) (overrideTask : Option String)
    (incrementIndex : Bool) (stateIdx : Nat) : Except String (WorkerReport × Nat) :=
  let bump : Nat := if incrementIndex then 1 else 0
  let taskText : String :=
    match overrideTask with
    | some o =>
      if o = "" then (match assignment with | some a => a.task | none => "") else o
    | none => match assignment with | some a => a.task | none => ""
  if taskText = "" then
    match mkWorkerReport workerName "" "failed" "Missing assignment." with
    | .ok r => .ok (r, stateIdx + bump)
    | .error e => .error e
  else
    match assignment with
    | none => .error "AttributeError: NoneType object has no attribute task"
    | some a =>
      match outcome with
      | .ok text =>
        match mkWorkerReport workerName a.task "success" text with
        | .ok r => .ok (r, stateIdx + bump)
        | .error e1 =>
          match mkWorkerReport workerName a.task "failed" ("Worker failed: " ++ e1) with
          | .ok r => .ok (r, stateIdx + bump)
          | .error e2 => .error e2
      | .error e =>
        match mkWorkerReport workerName a.task "failed" ("Worker failed: " ++ e) with
        | .ok r => .ok (r, stateIdx + bump)
        | .error e2 => .error e2

/-! ## Brew worker nodes (`brew/graph.py`) -/

/-- The state update a plain worker node yields when its report
construction succeeds: append the report (reducer), replace the index. -/
def plainNode (outcome : Except String String) (workerName : String)
    (incrementIndex : Bool) (a : TaskAssignment) (s : BrewS) : BrewS :=
  let p := runWorkerOk outcome workerName a none incrementIndex s.nextTaskIndex
  { s with workerReports := s.workerReports ++ [p.1], nextTaskIndex := p.2 }

/-- A plain worker node as it actually executes: `_run_worker` on the
routed assignment; an exception raised inside the wrapper (pydantic
`ValidationError`, `AttributeError`) propagates out of the node. -/
def plainWorker (outcome : Except String String) (workerName : String)
    (incrementIndex : Bool) (a : TaskAssignment) (s : BrewS) : Except String BrewS :=
  match runWorker outcome workerName (some a) none incrementIndex s.nextTaskIndex with
  | .error e => .error e
  | .ok p => .ok { s with workerReports := s.workerReports ++ [p.1], nextTaskIndex := p.2 }

def contentWorker (outcome : Except String String) (a : TaskAssignment) (s : BrewS) :
    Except String BrewS :=
  plainWorker outcome "content" true a s

def analyticsWorker (outcome : Except String String) (a : TaskAssignment) (s : BrewS) :
    Except String BrewS :=
  plainWorker outcome "analytics" true a s

def socialWorker (outcome : Except String String) (a : TaskAssignment) (s : BrewS) :
    Except String BrewS :=
  plainWorker outcome "social" true a s

def generalWorker (outcome : Except String String) (a : TaskAssignment) (s : BrewS) :
    Except String BrewS :=
  plainWorker outcome "general" true a s

/-- `report_worker`: the name `report` is outside the `WorkerName` Literal,
so every invocation raises. -/
def reportWorker (outcome : Except String String) (a : TaskAssignment) (s : BrewS) :
    Except String BrewS :=
  plainWorker outcome "report" true a s

/-- `strategist_worker`, the node meant to complete a research task and
advance the cursor: the name `strategist` is outside the `WorkerName`
Literal, so every invocation raises. -/
def strategistWorker (outcome : Except String String) (a : TaskAssignment) (s : BrewS) :
    Except String BrewS :=
  plainWorker outcome "strategist" true a s

/-- The delta prompt `research_worker` builds on round 2 and later. -/
def researchDeltaPrompt (task existing feedback : String) : String :=
  "Original Task: " ++ task ++ "\n\nEXISTING FINDINGS:\n" ++ existing ++
    "\n\nCRITIQUE (MISSING INFO): " ++ feedback ++
    "\n\nINSTRUCTION: Search ONLY for the missing items. Append them."

/-- The text `research_worker` sends to the research agent: the raw task on
round 1, the delta prompt when a critique is pending. -/
def researchInput (a : TaskAssignment) (s : BrewS) : String :=
  if s.critiqueFeedback = "" then a.task
  else researchDeltaPrompt a.task s.researchData s.critiqueFeedback

/-- The state update of a completing `research_worker`: run the wrapper
with the (possibly delta) prompt and no index increment, append the new
text to `research_data`, and bump `iteration_count`.  `research` is a
`WorkerName` literal, so `research_worker` always completes
(`researchWorker_ok`). -/
def researchNode (outcome : Except String String) (a : TaskAssignment) (s : BrewS) : BrewS :=
  let p := runWorkerOk outcome "research" a (some (researchInput a s)) false s.nextTaskIndex
  let combined : String :=
    if s.researchData = "" then p.1.result else s.researchData ++ "\n\n" ++ p.1.result
  { s with workerReports := s.workerReports ++ [p.1], nextTaskIndex := p.2,
           researchData := combined, iterationCount := s.iterationCount + 1 }

/-- `research_worker` as it actually executes. -/
def researchWorker (outcome : Except String String) (a : TaskAssignment) (s : BrewS) :
    Except String BrewS :=
  match runWorker outcome "research" (some a) (some (researchInput a s)) false
      s.nextTaskIndex with
  | .error e => .error e
  | .ok p =>
    .ok { s with workerReports := s.workerReports ++ [p.1], nextTaskIndex := p.2,
                 researchData := if s.researchData = "" then p.1.result
                   else s.researchData ++ "\n\n" ++ p.1.result,
                 iterationCount := s.iterationCount + 1 }

/-- `reviewer_worker` as it actually executes: the research data is read
into a local that is never used, the reviewer agent is invoked on the raw
assignment task, and the report construction then raises — `reviewer` is
outside the `WorkerName` Literal — so the verdict is never stored. -/
def reviewerWorker (outcome : Except String String) (a : TaskAssignment) (s : BrewS) :
    Except String BrewS :=
  match runWorker outcome "reviewer" (some a) none false s.nextTaskIndex with
  | .error e => .error e
  | .ok p =>
    .ok { s with workerReports := s.workerReports ++ [p.1], nextTaskIndex := p.2,
                 critiqueFeedback := p.1.result }

/-- The text the reviewer agent is invoked on (the agent call happens
before the failing report construction). -/
def reviewerAgentInput (a : TaskAssignment) : String :=
  workerCallInput a none

/-! ## Debate loop (`brew/graph.py`, `should_continue_debate`) -/

/-- `should_continue_debate`: back to research when the verdict contains
`REJECT` and fewer than 3 iterations have run, otherwise to the strategist. -/
def shouldContinueDebate (s : BrewS) : String :=
  if pyIn "REJECT" s.critiqueFeedback = true ∧ s.iterationCount < 3 then "research_worker"
  else "strategist_worker"

theorem researchNode_iterationCount (outcome : Except String String)
    (a : TaskAssignment) (s : BrewS) :
    (researchNode outcome a s).iterationCount = s.iterationCount + 1 := rfl

theorem shouldContinueDebate_research_iff (s : BrewS) :
    shouldContinueDebate s = "research_worker" ↔
      (pyIn "REJECT" s.critiqueFeedback = true ∧ s.iterationCount < 3) := by
  unfold shouldContinueDebate
  split
  · exact ⟨fun _ => by assumption, fun _ => rfl⟩
  · refine ⟨fun h => absurd h (by decide), fun h => absurd h (by assumption)⟩

/-- `task_router` from `brew/graph.py`: route to the synthesizer when the
plan is empty or exhausted, otherwise set `route` and `assignment` for the
worker of the current task. -/
def taskRouter (s : BrewS) : BrewS :=
  if s.taskPlan = [] then { s with route := "synthesizer" }
  else if s.taskPlan.length ≤ s.nextTaskIndex then { s with route := "synthesizer" }
  else
    { s with route := (s.taskPlan.getD s.nextTaskIndex ⟨"", "", 2⟩).worker ++ "_worker",
             assignment := some (s.taskPlan.getD s.nextTaskIndex ⟨"", "", 2⟩) }

/-- Merging a planner update into the brew state: `task_plan` and `status`
are replaced; `next_task_index` only when the update carries it. -/
def applyPlannerUpdate (u : PlannerUpdate) (s : BrewS) : BrewS :=
  { s with taskPlan := u.taskPlan.tasks, status := u.status,
           nextTaskIndex := match u.nextTaskIndex with | some i => i | none => s.nextTaskIndex }

/-- `synthesizer` from `brew/graph.py`: writes `final_response` and `status`
(the completion text is the model oracle). -/
def synthesizerNode (finalText : String) (s : BrewS) : BrewS :=
  { s with finalResponse := finalText, status := "Synthesis complete" }

/-! ## Investigator graph (`investigator/graph.py`, `investigator/state.py`) -/

/-- One task of an investigator research plan (`name`, `goal`, `tool_hint`,
`tool_args`). -/
structure InvTask where
  name : String
  goal : String
  toolHint : String
  toolArgs : List (String × String)
deriving DecidableEq

/-- An investigator research plan: the parsed tasks object. -/
structure InvPlan where
  tasks : List InvTask
deriving DecidableEq

/-- The `AgentState` fields of `investigator/state.py` the nodes operate on
(messages and model bookkeeping omitted). -/
structure InvAgentState where
  topic : String
  researchPlan : InvPlan
  userFeedback : String
  gatheredData : List String
  finalReport : String
deriving DecidableEq

/-- The deterministic fallback plan `planner_node` builds when parsing the
structured plan fails. -/
def fallbackPlan (topic : String) : InvPlan :=
  ⟨[⟨"General Search", "Research " ++ topic, "tavily_search", [("query", topic)]⟩]⟩

/-- `planner_node` state update: the parsed plan, or the fallback on a parse
error; `user_feedback` is reset to the empty string.  `parsed` is the
outcome of extracting and `json.loads`-ing the model response. -/
def invPlannerUpdate (parsed : Except String InvPlan) (topic : String) :
    InvPlan × String :=
  match parsed with
  | .ok p => (p, "")
  | .error _ => (fallbackPlan topic, "")

/-- Merging the planner update into the investigator state (plain channel
replacement: `AgentState` declares no reducer). -/
def applyInvPlanner (parsed : Except String InvPlan) (s : InvAgentState) : InvAgentState :=
  { s with researchPlan := (invPlannerUpdate parsed s.topic).1,
           userFeedback := (invPlannerUpdate parsed s.topic).2 }

/-- The log entry `executor_node` appends for one task
(`### Task: {name}\n**Goal:** {goal}\n\n{task_result}`). -/
def executorEntry (t : InvTask) (taskResult : String) : String :=
  "### Task: " ++ t.name ++ "\n**Goal:** " ++ t.goal ++ "\n\n" ++ taskResult

/-- The `gathered_data_log` list `executor_node` builds: one entry per task
of the plan, in order; `results i` is the tool/LLM outcome of task `i`. -/
def executorLog (tasks : List InvTask) (results : Nat → String) : List String :=
  tasks.enum.map (fun p => executorEntry p.2 (results p.1))

/-- `executor_node` state update: it returns only
a dictionary with the sole key gathered_data, which replaces the channel
(no reducer on `gathered_data`); every other field is untouched. -/
def applyExecutor (results : Nat → String) (s : InvAgentState) : InvAgentState :=
  { s with gatheredData := executorLog s.researchPlan.tasks results }

/-- The graph-level approval word list of `should_continue`
(`investigator/graph.py`); it includes the empty string. -/
def approvalKeywordsGraph : List String :=
  ["approve", "approved", "ok", "okay", "yes", "go", "proceed", ""]

/-- `should_continue` from `investigator/graph.py`: the conditional edge
after the planner interrupt. -/
def shouldContinue (userFeedback : String) : String :=
  let feedback := pyStrip (pyLower userFeedback)
  if feedback = "" ∨ approvalKeywordsGraph.contains feedback = true then "executor"
  else "planner"

/-! ## Server intent detection (`server.py`) -/

def APPROVAL_KEYWORDS : List String :=
  ["approve", "approved", "ok", "okay", "yes", "go", "proceed"]

def FEEDBACK_HINTS : List String :=
  ["feedback", "modify", "change", "adjust", "improve", "expand", "revise", "add", "focus"]

/-- `detect_investigator_intent` from `server.py`. -/
def detectInvestigatorIntent (feedbackText : Option String) : Option String :=
  match feedbackText with
  | none => none
  | some ft =>
    if ft = "" then none
    else
      let text := pyStrip (pyLower ft)
      if text = "" then none
      else if APPROVAL_KEYWORDS.contains text then some "approve"
      else if FEEDBACK_HINTS.any (fun h => pyIn h text) then some "feedback"
      else if 3 < (pySplitWs text).length then some "feedback"
      else none

/-! ## Event translation (`server.py`, `run_investigator_stream`) -/

/-- The internal executor events the translation loop dispatches on. -/
inductive InvInternalEvent
  | chatModelStream (content : String)
  | toolStart (name : String) (inputStr : String)
  | chainEnd (name : String) (finalReport : Option String)
  | toolEnd (name : String)
  | otherEvent
deriving DecidableEq

/-- The external protocol events pushed onto the client queue.  A
`workerComplete` constructor is included to state the protocol-level claim
about worker-completion events; the investigator stream never produces it. -/
inductive OutEvent
  | token (content : String)
  | status (content : String)
  | report (content : String)
  | workerComplete (worker : String) (task : String)
  | complete
  | errorEvent (content : String)
deriving DecidableEq

/-- Python `input_str[:50] if input_str else ""`. -/
def inputPreview (inputStr : String) : String :=
  ⟨inputStr.data.take 50⟩

/-- The body of the `async for event …` loop of `run_investigator_stream`:
what one internal event contributes to the client queue.  The mapping is
stateless: no previously emitted event is consulted. -/
def translateEvent : InvInternalEvent → List OutEvent
  | .chatModelStream c => if c = "" then [] else [.token c]
  | .toolStart name inputStr =>
    [.status ("🔍 Running " ++ (if name = "" then "tool" else name) ++ "... " ++
      inputPreview inputStr)]
  | .toolEnd name =>
    [.status ("✅ " ++ (if name = "" then "Tool" else name) ++ " completed")]
  | .chainEnd name finalReport =>
    if name = "reporter" then
      match finalReport with
      | some r => [.report r]
      | none => []
    else if name = "executor" then
      [.status "📊 Data gathering complete, generating report..."]
    else if name = "planner" then
      [.status "✅ Research plan generated"]
    else []
  | .otherEvent => []

/-- The translated bodies of a whole internal stream, in order. -/
def runStreamEvents (evs : List InvInternalEvent) : List OutEvent :=
  (evs.map translateEvent).flatten

/-- The full client stream of one run: the translated events followed by
the terminal `complete`. -/
def runStreamOutput (evs : List InvInternalEvent) : List OutEvent :=
  runStreamEvents evs ++ [.complete]

/-- Is an emitted event a worker-completion event? -/
def isWorkerCompleteEvent : OutEvent → Bool
  | .workerComplete _ _ => true
  | _ => false

/-- Does an emitted stream contain two consecutive `status` events with
identical content? -/
def hasConsecutiveDuplicateStatus : List OutEvent → Bool
  | .status a :: .status b :: rest =>
    (a == b) || hasConsecutiveDuplicateStatus (.status b :: rest)
  | _ :: rest => hasConsecutiveDuplicateStatus rest
  | [] => false

/-! ## Supporting lemmas -/

theorem runWorkerOk_snd (outcome : Except String String) (workerName : String)
    (a : TaskAssignment) (overrideTask : Option String) (incrementIndex : Bool)
    (stateIdx : Nat) :
    (runWorkerOk outcome workerName a overrideTask incrementIndex stateIdx).2 =
      stateIdx + (if incrementIndex then 1 else 0) := by
  unfold runWorkerOk
  dsimp only
  split
  · rfl
  · split <;> rfl

theorem runWorker_valid (outcome : Except String String) (workerName : String)
    (a : TaskAssignment) (overrideTask : Option String) (incrementIndex : Bool)
    (stateIdx : Nat) (h : validWorkerNames.contains workerName = true) :
    runWorker outcome workerName (some a) overrideTask incrementIndex stateIdx =
      Except.ok (runWorkerOk outcome workerName a overrideTask incrementIndex stateIdx) := by
  have hm : workerName ∈ validWorkerNames := by simpa using h
  rcases overrideTask with _ | o
  · by_cases ht : a.task = ""
    · simp [runWorker, runWorkerOk, workerCallInput, mkWorkerReport, hm, ht]
    · rcases outcome with t | e <;>
        simp [runWorker, runWorkerOk, workerCallInput, mkWorkerReport, hm, ht]
  · by_cases ho : o = ""
    · by_cases ht : a.task = ""
      · simp [runWorker, runWorkerOk, workerCallInput, mkWorkerReport, hm, ho, ht]
      · rcases outcome with t | e <;>
          simp [runWorker, runWorkerOk, workerCallInput, mkWorkerReport, hm, ho, ht]
    · rcases outcome with t | e <;>
        simp [runWorker, runWorkerOk, workerCallInput, mkWorkerReport, hm, ho]

theorem runWorker_invalid (outcome : Except String String) (workerName : String)
    (a : TaskAssignment) (overrideTask : Option String) (incrementIndex : Bool)
    (stateIdx : Nat) (h : validWorkerNames.contains workerName = false) :
    runWorker outcome workerName (some a) overrideTask incrementIndex stateIdx =
      Except.error (workerNameError workerName) := by
  have hm : ¬ workerName ∈ validWorkerNames := by simpa using h
  rcases overrideTask with _ | o
  · by_cases ht : a.task = ""
    · simp [runWorker, mkWorkerReport, hm, ht]
    · rcases outcome with t | e <;> simp [runWorker, mkWorkerReport, hm, ht]
  · by_cases ho : o = ""
    · by_cases ht : a.task = ""
      · simp [runWorker, mkWorkerReport, hm, ho, ht]
      · rcases outcome with t | e <;> simp [runWorker, mkWorkerReport, hm, ho, ht]
    · rcases outcome with t | e <;> simp [runWorker, mkWorkerReport, hm, ho]

theorem plainNode_nextTaskIndex (outcome : Except String String) (workerName : String)
    (incrementIndex : Bool) (a : TaskAssignment) (s : BrewS) :
    (plainNode outcome workerName incrementIndex a s).nextTaskIndex =
      s.nextTaskIndex + (if incrementIndex then 1 else 0) := by
  simp [plainNode, runWorkerOk_snd]

theorem researchNode_nextTaskIndex (outcome : Except String String)
    (a : TaskAssignment) (s : BrewS) :
    (researchNode outcome a s).nextTaskIndex = s.nextTaskIndex := by
  simp [researchNode, runWorkerOk_snd]

theorem contentWorker_eq (outcome : Except String String) (a : TaskAssignment) (s : BrewS) :
    contentWorker outcome a s = Except.ok (plainNode outcome "content" true a s) := by
  unfold contentWorker plainWorker plainNode
  rw [runWorker_valid _ _ _ _ _ _ (by decide)]

theorem analyticsWorker_eq (outcome : Except String String) (a : TaskAssignment) (s : BrewS) :
    analyticsWorker outcome a s = Except.ok (plainNode outcome "analytics" true a s) := by
  unfold analyticsWorker plainWorker plainNode
  rw [runWorker_valid _ _ _ _ _ _ (by decide)]

theorem socialWorker_eq (outcome : Except String String) (a : TaskAssignment) (s : BrewS) :
    socialWorker outcome a s = Except.ok (plainNode outcome "social" true a s) := by
  unfold socialWorker plainWorker plainNode
  rw [runWorker_valid _ _ _ _ _ _ (by decide)]

theorem generalWorker_eq (outcome : Except String String) (a : TaskAssignment) (s : BrewS) :
    generalWorker outcome a s = Except.ok (plainNode outcome "general" true a s) := by
  unfold generalWorker plainWorker plainNode
  rw [runWorker_valid _ _ _ _ _ _ (by decide)]

theorem researchWorker_ok (outcome : Except String String) (a : TaskAssignment) (s : BrewS) :
    researchWorker outcome a s = Except.ok (researchNode outcome a s) := by
  unfold researchWorker researchNode
  rw [runWorker_valid _ _ _ _ _ _ (by decide)]

theorem reviewerWorker_raises (outcome : Except String String) (a : TaskAssignment)
    (s : BrewS) :
    reviewerWorker outcome a s = Except.error (workerNameError "reviewer") := by
  unfold reviewerWorker
  rw [runWorker_invalid _ _ _ _ _ _ (by decide)]

theorem strategistWorker_raises (outcome : Except String String) (a : TaskAssignment)
    (s : BrewS) :
    strategistWorker outcome a s = Except.error (workerNameError "strategist") := by
  unfold strategistWorker plainWorker
  rw [runWorker_invalid _ _ _ _ _ _ (by decide)]

theorem reportWorker_raises (outcome : Except String String) (a : TaskAssignment)
    (s : BrewS) :
    reportWorker outcome a s = Except.error (workerNameError "report") := by
  unfold reportWorker plainWorker
  rw [runWorker_invalid _ _ _ _ _ _ (by decide)]

/-- C1: the loop guard of `should_continue_debate` is exactly the claimed
REJECT-and-fewer-than-3 test, and a completing research entry increments
`iteration_count` by exactly 1, but the verified loop dynamics stop there:
every reviewer invocation (and every strategist invocation) raises a
pydantic `ValidationError` constructing its `WorkerReport`, so the run
aborts at the first reviewer, no routing after the reviewer ever happens
and the strategist is never reached. -/
theorem debate_loop_aborts_at_first_reviewer :
  (∀ s : BrewS, shouldContinueDebate s = "research_worker" ↔
      (pyIn "REJECT" s.critiqueFeedback = true ∧ s.iterationCount < 3)) ∧
  (∀ (o : Except String String) (a : TaskAssignment) (s : BrewS),
      researchWorker o a s = Except.ok (researchNode o a s)) ∧
  (∀ (o : Except String String) (a : TaskAssignment) (s : BrewS),
      (researchNode o a s).iterationCount = s.iterationCount + 1) ∧
  (∀ (o : Except String String) (a : TaskAssignment) (s : BrewS),
      reviewerWorker o a s = Except.error (workerNameError "reviewer")) ∧
  (∀ (o : Except String String) (a : TaskAssignment) (s : BrewS),
      strategistWorker o a s = Except.error (workerNameError "strategist")) :=
  ⟨shouldContinueDebate_research_iff, researchWorker_ok,
    researchNode_iterationCount, reviewerWorker_raises, strategistWorker_raises⟩

/-- C2: the content, analytics, social and general workers advance the
cursor by exactly 1, and a completing research entry leaves it unchanged;
but the claimed net advance of a research assignment does not exist: the
reviewer, strategist and report nodes raise a `ValidationError` on every
invocation, so a research assignment aborts at its first reviewer and its
cursor never advances. -/
theorem cursor_advance_and_validation_abort :
  (∀ (o : Except String String) (a : TaskAssignment) (s : BrewS),
      contentWorker o a s = Except.ok (plainNode o "content" true a s)) ∧
  (∀ (o : Except String String) (a : TaskAssignment) (s : BrewS),
      analyticsWorker o a s = Except.ok (plainNode o "analytics" true a s)) ∧
  (∀ (o : Except String String) (a : TaskAssignment) (s : BrewS),
      socialWorker o a s = Except.ok (plainNode o "social" true a s)) ∧
  (∀ (o : Except String String) (a : TaskAssignment) (s : BrewS),
      generalWorker o a s = Except.ok (plainNode o "general" true a s)) ∧
  (∀ (o : Except String String) (workerName : String) (a : TaskAssignment) (s : BrewS),
      (plainNode o workerName true a s).nextTaskIndex = s.nextTaskIndex + 1) ∧
  (∀ (o : Except String String) (a : TaskAssignment) (s : BrewS),
      (researchNode o a s).nextTaskIndex = s.nextTaskIndex) ∧
  (∀ (o : Except String String) (a : TaskAssignment) (s : BrewS),
      reportWorker o a s = Except.error (workerNameError "report")) ∧
  (∀ (o : Except String String) (a : TaskAssignment) (s : BrewS),
      strategistWorker o a s = Except.error (workerNameError "strategist")) ∧
  (∀ (o : Except String String) (a : TaskAssignment) (s : BrewS),
      reviewerWorker o a s = Except.error (workerNameError "reviewer")) := by
  refine ⟨contentWorker_eq, analyticsWorker_eq, socialWorker_eq, generalWorker_eq,
    ?_, researchNode_nextTaskIndex, reportWorker_raises, strategistWorker_raises,
    reviewerWorker_raises⟩
  intro o workerName a s
  simp [plainNode_nextTaskIndex]

/-- C3: exception containment exists only for worker names inside the
`WorkerName` Literal — there an agent exception becomes a single failed
report carrying the message — while for any other name (`reviewer`,
`strategist`, `report`) every branch of `_run_worker`, the `except`
handler included, constructs an invalid `WorkerReport`, so a
`ValidationError` propagates out of the node on every invocation. -/
theorem worker_exception_containment_broken :
  (∀ (e workerName : String) (a : TaskAssignment) (overrideTask : Option String)
      (incrementIndex : Bool) (stateIdx : Nat),
      validWorkerNames.contains workerName = true →
      workerCallInput a overrideTask ≠ "" →
      runWorker (Except.error e) workerName (some a) overrideTask incrementIndex stateIdx =
        Except.ok (⟨workerName, a.task, "failed", "Worker failed: " ++ e, []⟩,
          stateIdx + (if incrementIndex then 1 else 0))) ∧
  (∀ (outcome : Except String String) (workerName : String) (a : TaskAssignment)
      (overrideTask : Option String) (incrementIndex : Bool) (stateIdx : Nat),
      validWorkerNames.contains workerName = false →
      runWorker outcome workerName (some a) overrideTask incrementIndex stateIdx =
        Except.error (workerNameError workerName)) ∧
  (∀ (o : Except String String) (a : TaskAssignment) (s : BrewS),
      reviewerWorker o a s = Except.error (workerNameError "reviewer")) ∧
  (∀ (o : Except String String) (a : TaskAssignment) (s : BrewS),
      strategistWorker o a s = Except.error (workerNameError "strategist")) ∧
  (∀ (o : Except String String) (a : TaskAssignment) (s : BrewS),
      reportWorker o a s = Except.error (workerNameError "report")) := by
  refine ⟨?_, ?_, reviewerWorker_raises, strategistWorker_raises, reportWorker_raises⟩
  · intro e workerName a overrideTask incrementIndex stateIdx hv hne
    rw [runWorker_valid _ _ _ _ _ _ hv]
    unfold runWorkerOk
    dsimp only
    rw [if_neg hne]
  · intro outcome workerName a overrideTask incrementIndex stateIdx hv
    exact runWorker_invalid _ _ _ _ _ _ hv

/-- C4: the reviewer agent is invoked — before the failing report
construction — on the raw assignment task only: the accumulated
`research_data` is read into a dead local and never passed on; and the
invocation then raises its `ValidationError`, so no verdict is ever stored
into `critique_feedback`.  Evaluated at a concrete round-2 state. -/
theorem reviewer_input_omits_research_data :
  reviewerAgentInput ⟨"research", "Research competitor pricing", 1⟩ =
    "Research competitor pricing" ∧
  pyIn "ROUND1 FINDINGS: 12 sources with pricing table"
    (reviewerAgentInput ⟨"research", "Research competitor pricing", 1⟩) = false ∧
  reviewerWorker (Except.ok "APPROVE: solid research")
      ⟨"research", "Research competitor pricing", 1⟩
      { taskPlan := [⟨"research", "Research competitor pricing", 1⟩],
        researchData := "ROUND1 FINDINGS: 12 sources with pricing table",
        iterationCount := 1,
        assignment := some ⟨"research", "Research competitor pricing", 1⟩ }
    = Except.error (workerNameError "reviewer") :=
  ⟨rfl, by decide, reviewerWorker_raises _ _ _⟩

/-- C5 counterexample: the message `who are you` gets the direct response
(empty task plan) although it is not greeting-like, so direct response is
not equivalent to the greeting test of the claim. -/
theorem planner_direct_not_iff_greeting :
  ¬ (plannerPath "who are you" = PlannerPath.direct ↔
      isGreetingLike "who are you" = true) := by
  decide

/-- C5 (amended): direct response happens exactly for greeting-like messages
or short, action-free identity questions; the cheap general-worker path
happens exactly for the remaining action-free messages of at most 25
tokens; the input `hi` yields the empty task plan. -/
theorem planner_classification :
  (∀ u, plannerPath u = PlannerPath.direct ↔
      (isGreetingLike u = true ∨
        ((plannerTokens u).length ≤ 6 ∧ isActionMsg u = false ∧
          identityPhrases.any (fun k => pyIn k (plannerUserLower u)) = true))) ∧
  (∀ u, plannerPath u = PlannerPath.cheap ↔
      (plannerPath u ≠ PlannerPath.direct ∧ isActionMsg u = false ∧
        (plannerTokens u).length ≤ 25)) ∧
  (∀ m, brewPlanner "hi" m =
      Except.ok ⟨⟨"Direct response", []⟩, "Direct response", none⟩) := by
  have hsimple : ∀ u, isSimpleMsg u = true ↔
      (isGreetingLike u = true ∨
        ((plannerTokens u).length ≤ 6 ∧ isActionMsg u = false ∧
          identityPhrases.any (fun k => pyIn k (plannerUserLower u)) = true)) := by
    intro u
    unfold isSimpleMsg
    simp [Bool.or_eq_true, Bool.and_eq_true, decide_eq_true_iff, Bool.not_eq_true']
    tauto
  have hdirect : ∀ u, plannerPath u = PlannerPath.direct ↔ isSimpleMsg u = true := by
    intro u
    unfold plannerPath
    split
    · exact ⟨fun _ => by assumption, fun _ => rfl⟩
    · constructor
      · intro h
        split at h <;> exact absurd h (by decide)
      · intro h
        exact absurd h (by assumption)
  refine ⟨fun u => (hdirect u).trans (hsimple u), ?_, ?_⟩
  · intro u
    constructor
    · intro h
      have hnd : plannerPath u ≠ PlannerPath.direct := by
        rw [h]; decide
      refine ⟨hnd, ?_⟩
      have hns : ¬ isSimpleMsg u = true := fun hs => hnd ((hdirect u).mpr hs)
      unfold plannerPath at h
      rw [if_neg hns] at h
      split at h
      · rename_i hc
        simp only [Bool.and_eq_true, Bool.not_eq_true', decide_eq_true_iff] at hc
        exact hc
      · exact absurd h (by decide)
    · intro ⟨hnd, hna, hlen⟩
      have hns : ¬ isSimpleMsg u = true := fun hs => hnd ((hdirect u).mpr hs)
      unfold plannerPath
      rw [if_neg hns, if_pos]
      simp [hna, hlen]
  · intro m
    unfold brewPlanner
    rw [show plannerPath "hi" = PlannerPath.direct from by decide]

/-- C6 counterexample: on an action-flagged message, a failing structured
plan call makes the brew planner propagate the error instead of falling
back, leaving no task plan. -/
theorem brew_planner_propagates_parse_failure :
  brewPlanner "research acme corp market position" (Except.error "ValidationError") =
    Except.error "ValidationError" := by
  unfold brewPlanner
  rw [show plannerPath "research acme corp market position" = PlannerPath.structured
    from by decide]

/-- C6 (amended): the investigator planner node converts every parse failure
into the deterministic single-task fallback plan derived from the raw
topic, so its plan field is always defined; the brew planner node defines
`task_plan` on every heuristic branch, but a failing structured call
propagates (no fallback). -/
theorem planner_parse_failure_fallback :
  (∀ (e topic : String), (invPlannerUpdate (Except.error e) topic).1 = fallbackPlan topic) ∧
  (∀ topic : String, (fallbackPlan topic).tasks.map InvTask.goal = ["Research " ++ topic]) ∧
  (∀ (parsed : Except String InvPlan) (s : InvAgentState),
      (applyInvPlanner parsed s).researchPlan = (invPlannerUpdate parsed s.topic).1) ∧
  (∀ (u : String) (m : Except String TaskPlan) (r : PlannerUpdate),
      plannerPath u ≠ PlannerPath.structured → brewPlanner u m = Except.ok r →
        r.taskPlan.tasks = [] ∨ r.taskPlan.tasks = [⟨"general", u, 1⟩]) ∧
  (∀ (u e : String), plannerPath u = PlannerPath.structured →
      brewPlanner u (Except.error e) = Except.error e) := by
  refine ⟨fun e topic => rfl, fun topic => rfl, fun parsed s => rfl, ?_, ?_⟩
  · intro u m r hns h
    unfold brewPlanner at h
    rcases hp : plannerPath u with _ | _ | _ <;> rw [hp] at h
    · cases h
      exact Or.inl rfl
    · cases h
      exact Or.inr rfl
    · exact absurd hp hns
  · intro u e h
    unfold brewPlanner
    rw [h]

/-- The concrete approval words of the investigator routing are at most one
token long and contain none of the revision-hint words. -/
theorem approval_words_short (f : String)
    (h : approvalKeywordsGraph.contains f = true) :
    (pySplitWs f).length ≤ 1 ∧ pyIn "modify" f = false ∧ pyIn "add" f = false ∧
      pyIn "remove" f = false := by
  simp [approvalKeywordsGraph] at h
  rcases h with rfl | rfl | rfl | rfl | rfl | rfl | rfl | rfl <;> decide

/-- C7: resuming routes to the executor exactly when the normalised
feedback is empty or one of the fixed approval words (so the planner is not
re-run); any feedback of more than three words, or containing `modify`,
`add` or `remove`, routes back to the planner; and the server intent
detector classifies every approval word as `approve`. -/
theorem feedback_classification_routing :
  (∀ fb, shouldContinue fb = "executor" ↔
      (pyStrip (pyLower fb) = "" ∨
        approvalKeywordsGraph.contains (pyStrip (pyLower fb)) = true)) ∧
  (∀ fb, 3 < (pySplitWs (pyStrip (pyLower fb))).length → shouldContinue fb = "planner") ∧
  (∀ fb, (pyIn "modify" (pyStrip (pyLower fb)) = true ∨
          pyIn "add" (pyStrip (pyLower fb)) = true ∨
          pyIn "remove" (pyStrip (pyLower fb)) = true) →
      shouldContinue fb = "planner") ∧
  (APPROVAL_KEYWORDS.all
      (fun w => detectInvestigatorIntent (some w) == some "approve") = true) := by
  have hiff : ∀ fb, shouldContinue fb = "executor" ↔
      (pyStrip (pyLower fb) = "" ∨
        approvalKeywordsGraph.contains (pyStrip (pyLower fb)) = true) := by
    intro fb
    unfold shouldContinue
    dsimp only
    split
    · exact ⟨fun _ => by assumption, fun _ => rfl⟩
    · refine ⟨fun h => absurd h (by decide), fun h => absurd h (by assumption)⟩
  have hplanner : ∀ fb, shouldContinue fb = "executor" ∨ shouldContinue fb = "planner" := by
    intro fb
    unfold shouldContinue
    dsimp only
    split
    · exact Or.inl rfl
    · exact Or.inr rfl
  refine ⟨hiff, ?_, ?_, by decide⟩
  · intro fb hlen
    rcases hplanner fb with he | hp
    · exfalso
      rcases (hiff fb).mp he with hempty | hmem
      · rw [hempty] at hlen
        exact absurd hlen (by decide)
      · have := (approval_words_short _ hmem).1
        omega
    · exact hp
  · intro fb hhint
    rcases hplanner fb with he | hp
    · exfalso
      rcases (hiff fb).mp he with hempty | hmem
      · rw [hempty] at hhint
        rcases hhint with h | h | h <;> exact absurd h (by decide)
      · have hw := approval_words_short _ hmem
        rcases hhint with h | h | h
        · rw [hw.2.1] at h
          exact absurd h (by decide)
        · rw [hw.2.2.1] at h
          exact absurd h (by decide)
        · rw [hw.2.2.2] at h
          exact absurd h (by decide)
    · exact hp

/-- C8 counterexample: at a state holding an earlier entry and a pending
feedback, the executor update drops the old `gathered_data` entry (the
channel is replaced, not appended) and leaves `user_feedback` uncleared. -/
theorem executor_update_counterexample :
  (applyExecutor (fun _ => "TOOL RESULT")
      ⟨"X", ⟨[⟨"T1", "G1", "tavily_search", []⟩]⟩, "add competitor Y", ["OLD-ENTRY"], ""⟩
    ).userFeedback = "add competitor Y" ∧
  (applyExecutor (fun _ => "TOOL RESULT")
      ⟨"X", ⟨[⟨"T1", "G1", "tavily_search", []⟩]⟩, "add competitor Y", ["OLD-ENTRY"], ""⟩
    ).userFeedback ≠ "" ∧
  (applyExecutor (fun _ => "TOOL RESULT")
      ⟨"X", ⟨[⟨"T1", "G1", "tavily_search", []⟩]⟩, "add competitor Y", ["OLD-ENTRY"], ""⟩
    ).gatheredData.contains "OLD-ENTRY" = false := by
  refine ⟨rfl, by decide, by decide⟩

/-- C8 (amended): the executor update replaces `gathered_data` with a fresh
list holding exactly one formatted entry per task of the plan, in plan
order; it leaves `user_feedback`, `topic`, `research_plan` and
`final_report` untouched; clearing `user_feedback` is done by the planner
node instead. -/
theorem executor_update_shape :
  (∀ (results : Nat → String) (s : InvAgentState),
      (applyExecutor results s).gatheredData.length = s.researchPlan.tasks.length) ∧
  (∀ (results : Nat → String) (s : InvAgentState),
      (applyExecutor results s).gatheredData = executorLog s.researchPlan.tasks results) ∧
  (∀ (results : Nat → String) (s : InvAgentState),
      (applyExecutor results s).userFeedback = s.userFeedback ∧
      (applyExecutor results s).topic = s.topic ∧
      (applyExecutor results s).researchPlan = s.researchPlan ∧
      (applyExecutor results s).finalReport = s.finalReport) ∧
  (∀ (parsed : Except String InvPlan) (s : InvAgentState),
      (applyInvPlanner parsed s).userFeedback = "") := by
  refine ⟨?_, fun results s => rfl, fun results s => ⟨rfl, rfl, rfl, rfl⟩, ?_⟩
  · intro results s
    simp [applyExecutor, executorLog]
  · intro parsed s
    unfold applyInvPlanner invPlannerUpdate
    rcases parsed with _ | _ <;> rfl

/-- C9 counterexample: two successive tool-completion events for the same
tool make the translation loop push two consecutive `status` events with
identical content onto the client queue. -/
theorem translator_consecutive_duplicate_status :
  hasConsecutiveDuplicateStatus
    (runStreamOutput [InvInternalEvent.toolEnd "tavily_search",
      InvInternalEvent.toolEnd "tavily_search"]) = true := by
  decide

theorem translateEvent_no_worker_complete (ev : InvInternalEvent) :
    (translateEvent ev).all (fun o => !isWorkerCompleteEvent o) = true := by
  cases ev with
  | chatModelStream c =>
    simp only [translateEvent]
    split <;> rfl
  | toolStart n i => rfl
  | chainEnd n r =>
    simp only [translateEvent]
    split
    · rcases r with _ | r <;> rfl
    · split
      · rfl
      · split <;> rfl
  | toolEnd n => rfl
  | otherEvent => rfl

/-- C9 (amended): the translation layer is a stateless per-event mapping —
each internal event contributes its translation independently of what was
already emitted, with no deduplication — and it never emits any
worker-completion event, so in particular no completion pair repeats. -/
theorem translator_stateless_no_worker_complete :
  (∀ (ev : InvInternalEvent) (evs : List InvInternalEvent),
      runStreamEvents (ev :: evs) = translateEvent ev ++ runStreamEvents evs) ∧
  (∀ evs : List InvInternalEvent,
      (runStreamOutput evs).all (fun o => !isWorkerCompleteEvent o) = true) := by
  refine ⟨fun ev evs => rfl, ?_⟩
  intro evs
  unfold runStreamOutput
  rw [List.all_append]
  have h : ∀ l : List InvInternalEvent,
      (runStreamEvents l).all (fun o => !isWorkerCompleteEvent o) = true := by
    intro l
    induction l with
    | nil => rfl
    | cons e rest ihl =>
      unfold runStreamEvents at ihl ⊢
      rw [List.map_cons, List.flatten_cons, List.all_append, ihl,
        translateEvent_no_worker_complete]
      rfl
  rw [h]
  rfl

/-- C10 counterexample: the sole writer of `critique_feedback` — the
reviewer node — raises its `ValidationError` at a concrete debate state
instead of storing the verdict, so no later research assignment can ever
enter its debate loop with a leftover critique from a previous
assignment. -/
theorem critique_feedback_never_written :
  reviewerWorker (Except.ok "REJECT: missing pricing data")
      ⟨"research", "Research the market", 1⟩
      { taskPlan := [⟨"research", "Research the market", 1⟩],
        researchData := "ROUND1 FINDINGS",
        iterationCount := 1,
        assignment := some ⟨"research", "Research the market", 1⟩ }
    = Except.error (workerNameError "reviewer") :=
  reviewerWorker_raises _ _ _

/-- C10 (amended): every brew node that returns an update leaves
`iteration_count`, `critique_feedback` and `research_data` un-reset: the
planner merge, the router, every plain worker that completes and the
synthesizer keep all three unchanged; a completing research entry keeps
the critique, only appends to `research_data` and increments the count,
and a research entry that found a non-empty critique would build the
round-2 delta prompt from the accumulated data; but the reviewer — the
sole writer of `critique_feedback` — raises on every invocation, so
within a run the leftover-critique scenario never materialises. -/
theorem fields_persist_but_critique_never_set :
  (∀ (u : PlannerUpdate) (s : BrewS),
      (applyPlannerUpdate u s).researchData = s.researchData ∧
      (applyPlannerUpdate u s).critiqueFeedback = s.critiqueFeedback ∧
      (applyPlannerUpdate u s).iterationCount = s.iterationCount) ∧
  (∀ s : BrewS, (taskRouter s).researchData = s.researchData ∧
      (taskRouter s).critiqueFeedback = s.critiqueFeedback ∧
      (taskRouter s).iterationCount = s.iterationCount) ∧
  (∀ (o : Except String String) (workerName : String) (inc : Bool)
      (a : TaskAssignment) (s s2 : BrewS),
      plainWorker o workerName inc a s = Except.ok s2 →
      s2.researchData = s.researchData ∧ s2.critiqueFeedback = s.critiqueFeedback ∧
      s2.iterationCount = s.iterationCount) ∧
  (∀ (t : String) (s : BrewS),
      (synthesizerNode t s).researchData = s.researchData ∧
      (synthesizerNode t s).critiqueFeedback = s.critiqueFeedback ∧
      (synthesizerNode t s).iterationCount = s.iterationCount) ∧
  (∀ (o : Except String String) (a : TaskAssignment) (s : BrewS),
      (researchNode o a s).critiqueFeedback = s.critiqueFeedback) ∧
  (∀ (o : Except String String) (a : TaskAssignment) (s : BrewS),
      ∃ rest, (researchNode o a s).researchData = s.researchData ++ rest) ∧
  (∀ (a : TaskAssignment) (s : BrewS), s.critiqueFeedback ≠ "" →
      researchInput a s = researchDeltaPrompt a.task s.researchData s.critiqueFeedback) ∧
  (∀ (o : Except String String) (a : TaskAssignment) (s : BrewS),
      reviewerWorker o a s = Except.error (workerNameError "reviewer")) := by
  refine ⟨fun u s => ⟨rfl, rfl, rfl⟩, ?_, ?_, fun t s => ⟨rfl, rfl, rfl⟩,
    fun o a s => rfl, ?_, ?_, reviewerWorker_raises⟩
  · intro s
    unfold taskRouter
    split
    · exact ⟨rfl, rfl, rfl⟩
    · split <;> exact ⟨rfl, rfl, rfl⟩
  · intro o workerName inc a s s2 h
    unfold plainWorker at h
    split at h
    · simp at h
    · simp only [Except.ok.injEq] at h
      subst h
      exact ⟨rfl, rfl, rfl⟩
  · intro o a s
    unfold researchNode
    dsimp only
    split
    · rename_i hempty
      refine ⟨(runWorkerOk o "research" a (some (researchInput a s)) false
        s.nextTaskIndex).1.result, ?_⟩
      rw [hempty]
      rfl
    · exact ⟨"\n\n" ++ (runWorkerOk o "research" a (some (researchInput a s)) false
        s.nextTaskIndex).1.result, String.append_assoc _ _ _⟩
  · intro a s h
    unfold researchInput
    rw [if_neg h]
